import Mathlib

/-!
Shallow embedding of the goflash/otel OpenTelemetry middleware (src/otel.go).

The middleware wraps a `flash.Handler`; per request it optionally skips
tracing (FilterFunc), extracts a remote parent context, starts a server
span, delegates to the inner handler, assembles span attributes, maps the
HTTP status and handler error to a span status, records the error, and
ends the span via a deferred call.

Modelling decisions:
- `flash.Ctx` is modelled as an explicit state record `Ctx`; a handler is
  a function `Ctx → Ctx × Except Panic (Option Err)` (the handler may
  mutate the context, return an error, or panic).
- Calls to the external tracer/propagator/span capabilities are recorded
  as an observation trace (`List Event`); Go's `defer span.End()` is
  embedded by emitting `Event.spanEnd` on every exit path after the span
  start, including the paths where the handler or the user-supplied
  attributes callback panics.
- Go error values are opaque to the middleware; they are modelled as
  strings compared by equality.
- `time.Since` is an external measurement; the measured elapsed
  nanoseconds are an explicit parameter of the run function.
-/

namespace GoflashOtel

/-- Opaque Go error value (only identity matters to the middleware). -/
abbrev Err := String

/-- A Go panic value propagating out of a callback. -/
structure Panic where
  msg : String
deriving DecidableEq, Repr

/-- OpenTelemetry span status codes (`go.opentelemetry.io/otel/codes`). -/
inductive SpanCode where
  | unset
  | error
  | ok
deriving DecidableEq, Repr

/-- OpenTelemetry span kinds (only the server kind is used here). -/
inductive SpanKind where
  | internal
  | server
deriving DecidableEq, Repr

/-- A typed attribute value (`attribute.KeyValue` values used by the code:
strings, ints, and the float64 duration, the latter modelled as a rational). -/
inductive AttrValue where
  | str (s : String)
  | int (i : Int)
  | float (q : ℚ)
deriving DecidableEq, Repr

/-- An OpenTelemetry attribute key/value pair. -/
structure Attr where
  key : String
  value : AttrValue
deriving DecidableEq, Repr

/-- A span handle as seen by application code: either a recording span
started by the middleware or the non-recording no-op span the OTel
library returns when a context carries no span. -/
inductive SpanHandle where
  | noop
  | span (name : String) (kind : SpanKind)
deriving DecidableEq, Repr

/-- The request's Go context, as far as tracing is concerned: the carrier
data a propagator extracted (opaque) and the active span, if any.
`trace.SpanFromContext` reads `activeSpan`. -/
structure TraceCtx where
  carrier : Option (List (String × String)) := none
  activeSpan : Option SpanHandle := none
deriving DecidableEq, Repr

/-- The `flash.Ctx` state the middleware reads and writes: HTTP method,
raw path, matched route template (`""` when absent), the status code the
handler wrote (`0` when none), the request's remote address, inbound
headers, and the request context (`c.Request().Context()`). -/
structure Ctx where
  method : String
  path : String
  route : String
  statusCode : Nat
  remoteAddr : String
  headers : List (String × String)
  reqCtx : TraceCtx
deriving DecidableEq, Repr

/-- A wrapped handler: transforms the context and either returns an
optional error or panics. -/
abbrev Handler := Ctx → Ctx × Except Panic (Option Err)

/-- Observable calls the middleware makes on the external tracer,
propagator and span capabilities, in order. -/
inductive Event where
  | extract
  | spanStart (name : String) (kind : SpanKind)
  | handlerInvoked
  | handlerReturned
  | setAttributes (attrs : List Attr)
  | setStatus (code : SpanCode) (desc : String)
  | recordError (e : Err)
  | spanEnd
deriving DecidableEq, Repr

/-- `OTelConfig` (src/otel.go lines 18-40). The tracer and propagator
handles are opaque external capabilities and are passed to the run
function directly; the remaining fields are modelled.  `AttributesFunc`
runs during finalization and may panic, which matters for the span-end
guarantee, so it returns `Except Panic`. -/
structure OTelConfig where
  filterFunc : Option (Ctx → Bool) := none
  spanNameFunc : Option (Ctx → String) := none
  attributesFunc : Option (Ctx → Except Panic (List Attr)) := none
  statusFunc : Option (Nat → Option Err → SpanCode × String) := none
  recordDuration : Bool := false
  serviceName : String := ""
  extraAttributes : List Attr := []

/-- Embedding of Go's `net/http.StatusText`: the canonical reason phrase
for a status code, `""` for unknown codes. -/
def statusText : Nat → String
  | 100 => "Continue"
  | 101 => "Switching Protocols"
  | 102 => "Processing"
  | 103 => "Early Hints"
  | 200 => "OK"
  | 201 => "Created"
  | 202 => "Accepted"
  | 203 => "Non-Authoritative Information"
  | 204 => "No Content"
  | 205 => "Reset Content"
  | 206 => "Partial Content"
  | 207 => "Multi-Status"
  | 208 => "Already Reported"
  | 226 => "IM Used"
  | 300 => "Multiple Choices"
  | 301 => "Moved Permanently"
  | 302 => "Found"
  | 303 => "See Other"
  | 304 => "Not Modified"
  | 305 => "Use Proxy"
  | 307 => "Temporary Redirect"
  | 308 => "Permanent Redirect"
  | 400 => "Bad Request"
  | 401 => "Unauthorized"
  | 402 => "Payment Required"
  | 403 => "Forbidden"
  | 404 => "Not Found"
  | 405 => "Method Not Allowed"
  | 406 => "Not Acceptable"
  | 407 => "Proxy Authentication Required"
  | 408 => "Request Timeout"
  | 409 => "Conflict"
  | 410 => "Gone"
  | 411 => "Length Required"
  | 412 => "Precondition Failed"
  | 413 => "Request Entity Too Large"
  | 414 => "Request URI Too Long"
  | 415 => "Unsupported Media Type"
  | 416 => "Requested Range Not Satisfiable"
  | 417 => "Expectation Failed"
  | 418 => "I\x27m a teapot"
  | 421 => "Misdirected Request"
  | 422 => "Unprocessable Entity"
  | 423 => "Locked"
  | 424 => "Failed Dependency"
  | 425 => "Too Early"
  | 426 => "Upgrade Required"
  | 428 => "Precondition Required"
  | 429 => "Too Many Requests"
  | 431 => "Request Header Fields Too Large"
  | 451 => "Unavailable For Legal Reasons"
  | 500 => "Internal Server Error"
  | 501 => "Not Implemented"
  | 502 => "Bad Gateway"
  | 503 => "Service Unavailable"
  | 504 => "Gateway Timeout"
  | 505 => "HTTP Version Not Supported"
  | 506 => "Variant Also Negotiates"
  | 507 => "Insufficient Storage"
  | 508 => "Loop Detected"
  | 510 => "Not Extended"
  | 511 => "Network Authentication Required"
  | _ => ""

/-- src/otel.go lines 59-65: default span name, `METHOD + " " + Path`,
replaced by `METHOD + " " + Route` when a route template is matched. -/
def defaultSpanName (c : Ctx) : String :=
  let name := c.method ++ " " ++ c.path
  if c.route ≠ "" then c.method ++ " " ++ c.route else name

/-- src/otel.go lines 67-72: default status mapping, `Error` with the
status text when the handler errored or the code is a 5xx, else `Ok`. -/
def defaultStatus (status : Nat) (err : Option Err) : SpanCode × String :=
  if err ≠ none ∨ status ≥ 500 then (SpanCode.error, statusText status)
  else (SpanCode.ok, "")

/-- src/otel.go lines 84-89: the configured `SpanNameFunc` wins when it
returns a non-empty string, otherwise the default name is used. -/
def resolveSpanName (cfg : OTelConfig) (c : Ctx) : String :=
  let name := defaultSpanName c
  match cfg.spanNameFunc with
  | some f => let n := f c; if n ≠ "" then n else name
  | none => name

/-- src/otel.go lines 134-137: the configured `StatusFunc` replaces the
default mapping entirely when present (the default is pure, so computing
it only in the absent case is observationally the same as the source,
which computes it first and overwrites). -/
def resolveStatus (cfg : OTelConfig) (status : Nat) (err : Option Err) :
    SpanCode × String :=
  match cfg.statusFunc with
  | some f => f status err
  | none => defaultStatus status err

/-- src/otel.go lines 104-107: a zero (unwritten) status code is treated
as 200. -/
def effectiveStatus (c : Ctx) : Nat :=
  if c.statusCode = 0 then 200 else c.statusCode

/-- src/otel.go line 77: skip tracing when a `FilterFunc` is configured
and returns true. -/
def filterDecision (cfg : OTelConfig) (c : Ctx) : Bool :=
  match cfg.filterFunc with
  | some f => f c
  | none => false

/-- src/otel.go line 92: the propagator capability extracts a parent
trace context from the inbound headers. -/
def extractedCtx (prop : TraceCtx → List (String × String) → TraceCtx)
    (c : Ctx) : TraceCtx :=
  prop c.reqCtx c.headers

/-- The tracer capability: starting a span yields a child context
carrying the new span handle, plus the handle itself. -/
def tracerStart (tc : TraceCtx) (name : String) (kind : SpanKind) :
    TraceCtx × SpanHandle :=
  ({ tc with activeSpan := some (SpanHandle.span name kind) },
   SpanHandle.span name kind)

/-- src/otel.go lines 92-98: the context the inner handler runs with —
the extracted parent context with the freshly started server span
attached, installed back onto the request. -/
def tracedRequestCtx (cfg : OTelConfig)
    (prop : TraceCtx → List (String × String) → TraceCtx) (c : Ctx) : Ctx :=
  { c with
    reqCtx := (tracerStart (extractedCtx prop c) (resolveSpanName cfg c)
      SpanKind.server).1 }

/-- src/otel.go lines 121-123: the extra attributes contributed by the
user's `AttributesFunc`, if configured, evaluated on the post-handler
context; it may panic, aborting assembly. -/
def attrsFnResult (cfg : OTelConfig) (c : Ctx) : Except Panic (List Attr) :=
  match cfg.attributesFunc with
  | some f => f c
  | none => Except.ok []

/-- src/otel.go lines 110-130: attribute assembly after the handler has
returned.  `c` is the post-handler context; `remoteAddr` comes from the
request captured before delegation; `status` is the effective status;
`elapsedNs` the measured duration in nanoseconds. -/
def buildAttrs (cfg : OTelConfig) (c : Ctx) (remoteAddr : String)
    (status : Nat) (elapsedNs : Nat) : Except Panic (List Attr) :=
  let attrs : List Attr :=
    [⟨"http.method", AttrValue.str c.method⟩,
     ⟨"http.target", AttrValue.str c.path⟩,
     ⟨"net.peer.addr", AttrValue.str remoteAddr⟩]
  let attrs := if c.route ≠ "" then
    attrs ++ [⟨"http.route", AttrValue.str c.route⟩] else attrs
  let attrs := if cfg.serviceName ≠ "" then
    attrs ++ [⟨"service.name", AttrValue.str cfg.serviceName⟩] else attrs
  match attrsFnResult cfg c with
  | Except.error p => Except.error p
  | Except.ok more =>
    let attrs := attrs ++ more
    let attrs := if cfg.extraAttributes ≠ [] then
      attrs ++ cfg.extraAttributes else attrs
    let attrs := attrs ++ [⟨"http.status_code", AttrValue.int status⟩]
    let attrs := if cfg.recordDuration then
      attrs ++ [⟨"http.server.duration_ms",
        AttrValue.float ((elapsedNs : ℚ) / 1000000)⟩] else attrs
    Except.ok attrs

deriving instance DecidableEq for Except

/-- The outcome of one middleware invocation: the final context, the
value returned to the caller (or the propagated panic), and the trace of
calls made on the external capabilities. -/
structure RunResult where
  ctx : Ctx
  result : Except Panic (Option Err)
  events : List Event
deriving DecidableEq, Repr

/-- src/otel.go lines 74-144: the per-request body of the middleware
returned by `OTelWithConfig`, with the resolved propagator passed as a
capability and the measured duration as an explicit input.  The deferred
`span.End()` is embedded as the trailing `Event.spanEnd` on every path
that started the span, including the two panic paths. -/
def OTelWithConfig (cfg : OTelConfig)
    (prop : TraceCtx → List (String × String) → TraceCtx)
    (elapsedNs : Nat) (next : Handler) (c : Ctx) : RunResult :=
  if filterDecision cfg c then
    { ctx := (next c).1, result := (next c).2, events := [] }
  else
    let name := resolveSpanName cfg c
    match next (tracedRequestCtx cfg prop c) with
    | (c2, Except.error p) =>
      { ctx := c2, result := Except.error p,
        events := [Event.extract, Event.spanStart name SpanKind.server,
          Event.handlerInvoked, Event.spanEnd] }
    | (c2, Except.ok err) =>
      let status := effectiveStatus c2
      match buildAttrs cfg c2 c.remoteAddr status elapsedNs with
      | Except.error p =>
        { ctx := c2, result := Except.error p,
          events := [Event.extract, Event.spanStart name SpanKind.server,
            Event.handlerInvoked, Event.handlerReturned, Event.spanEnd] }
      | Except.ok attrs =>
        let cd := resolveStatus cfg status err
        { ctx := c2, result := Except.ok err,
          events := [Event.extract, Event.spanStart name SpanKind.server,
            Event.handlerInvoked, Event.handlerReturned,
            Event.setAttributes attrs, Event.setStatus cd.1 cd.2]
            ++ (match err with
                | some e => [Event.recordError e]
                | none => [])
            ++ [Event.spanEnd] }

/-- An operation application code performs on a span handle. -/
inductive SpanOp where
  | setAttributes (attrs : List Attr)
  | addEvent (name : String) (attrs : List Attr)
deriving DecidableEq, Repr

/-- OTel library semantics: a non-recording no-op span discards every
operation; a recording span records it.  Total — no operation on any
handle can fail. -/
def SpanHandle.record : SpanHandle → SpanOp → List SpanOp
  | SpanHandle.noop, _ => []
  | SpanHandle.span _ _, op => [op]

/-- src/otel.go lines 150-152: `Span` returns the active span from the
request context; the OTel library returns the no-op span when the
context carries none. -/
def Span (c : Ctx) : SpanHandle :=
  match c.reqCtx.activeSpan with
  | some s => s
  | none => SpanHandle.noop

/-- src/otel.go lines 156-158: set attributes on the active span. -/
def AddAttributes (c : Ctx) (attrs : List Attr) : List SpanOp :=
  (Span c).record (SpanOp.setAttributes attrs)

/-- src/otel.go lines 162-164: add an event to the active span. -/
def AddEvent (c : Ctx) (name : String) (attrs : List Attr) : List SpanOp :=
  (Span c).record (SpanOp.addEvent name attrs)

/-- Recognizes a span-start call in the observation trace. -/
def isSpanStart : Event → Bool
  | Event.spanStart _ _ => true
  | _ => false

/-- Recognizes a span-end call in the observation trace. -/
def isSpanEnd : Event → Bool
  | Event.spanEnd => true
  | _ => false

/-! Concrete fixtures used by witness theorems. -/

/-- Identity propagator capability (extraction changes nothing). -/
def wProp : TraceCtx → List (String × String) → TraceCtx := fun tc _ => tc

/-- A handler that writes status 201 and succeeds. -/
def wNext : Handler := fun c => ({ c with statusCode := 201 }, Except.ok none)

/-- A handler that returns an error without writing a status, after
matching the route template. -/
def wNextErr : Handler := fun c =>
  ({ c with route := "/hello/:name" }, Except.ok (some "boom"))

/-- A concrete request context. -/
def wCtx : Ctx :=
  { method := "GET", path := "/hello/x", route := "", statusCode := 0,
    remoteAddr := "192.0.2.1:5000",
    headers := [("traceparent", "00-4bf92f3577b34da6a3ce929d0e0e4736-00f067aa0ba902b7-01")],
    reqCtx := {} }

/-- The empty (all-defaults) configuration. -/
def wCfg : OTelConfig := {}

/-- A configuration whose filter skips every request. -/
def wFilterFn : Ctx → Bool := fun _ => true

/-- Config with the always-true filter installed. -/
def wFilterCfg : OTelConfig := { filterFunc := some wFilterFn }

/-- A custom status mapper that inverts the default 5xx convention. -/
def wStatusFn : Nat → Option Err → SpanCode × String :=
  fun s _ => if s < 300 then (SpanCode.ok, "fine") else (SpanCode.error, "bad")

/-- Config with the custom status mapper installed. -/
def wStatusCfg : OTelConfig := { statusFunc := some wStatusFn }

/-! Helper lemmas shared by the claim theorems. -/

lemma defaultSpanName_ne_empty (c : Ctx) : defaultSpanName c ≠ "" := by
  unfold defaultSpanName
  split <;> intro h <;>
    · have hlen := congrArg String.length h
      simp [String.length_append] at hlen
      exact absurd hlen.1.2 (by decide)

lemma buildAttrs_ok_shape (cfg : OTelConfig) (c : Ctx) (ra : String)
    (status : Nat) (ns : Nat) (fnAttrs : List Attr)
    (hfn : attrsFnResult cfg c = Except.ok fnAttrs) :
    buildAttrs cfg c ra status ns = Except.ok (
      [⟨"http.method", AttrValue.str c.method⟩,
       ⟨"http.target", AttrValue.str c.path⟩,
       ⟨"net.peer.addr", AttrValue.str ra⟩]
      ++ (if c.route ≠ "" then [⟨"http.route", AttrValue.str c.route⟩] else [])
      ++ (if cfg.serviceName ≠ "" then
            [⟨"service.name", AttrValue.str cfg.serviceName⟩] else [])
      ++ fnAttrs
      ++ cfg.extraAttributes
      ++ [⟨"http.status_code", AttrValue.int status⟩]
      ++ (if cfg.recordDuration then
            [⟨"http.server.duration_ms",
              AttrValue.float ((ns : ℚ) / 1000000)⟩] else [])) := by
  unfold buildAttrs
  rw [hfn]
  by_cases hr : c.route ≠ "" <;> by_cases hs : cfg.serviceName ≠ "" <;>
    by_cases he : cfg.extraAttributes ≠ [] <;>
    by_cases hd : cfg.recordDuration <;>
    simp_all

lemma mem_of_buildAttrs_ok (cfg : OTelConfig) (c : Ctx) (ra : String)
    (status : Nat) (ns : Nat) (attrs : List Attr)
    (h : buildAttrs cfg c ra status ns = Except.ok attrs) :
    (⟨"http.method", AttrValue.str c.method⟩ : Attr) ∈ attrs ∧
    (⟨"http.target", AttrValue.str c.path⟩ : Attr) ∈ attrs ∧
    (⟨"net.peer.addr", AttrValue.str ra⟩ : Attr) ∈ attrs ∧
    (⟨"http.status_code", AttrValue.int status⟩ : Attr) ∈ attrs ∧
    (c.route ≠ "" → (⟨"http.route", AttrValue.str c.route⟩ : Attr) ∈ attrs) := by
  rcases hfn : attrsFnResult cfg c with p | fnAttrs
  · unfold buildAttrs at h
    rw [hfn] at h
    simp at h
  · rw [buildAttrs_ok_shape cfg c ra status ns fnAttrs hfn] at h
    rcases h with ⟨rfl⟩
    refine ⟨by simp, by simp, by simp, by simp, fun hr => ?_⟩
    simp [hr]

lemma run_not_filtered_ok (cfg : OTelConfig)
    (prop : TraceCtx → List (String × String) → TraceCtx) (ns : Nat)
    (next : Handler) (c : Ctx) (c2 : Ctx) (err : Option Err)
    (attrs : List Attr)
    (hfilter : filterDecision cfg c = false)
    (hnext : next (tracedRequestCtx cfg prop c) = (c2, Except.ok err))
    (hattrs : buildAttrs cfg c2 c.remoteAddr (effectiveStatus c2) ns =
      Except.ok attrs) :
    OTelWithConfig cfg prop ns next c =
      { ctx := c2, result := Except.ok err,
        events := [Event.extract,
          Event.spanStart (resolveSpanName cfg c) SpanKind.server,
          Event.handlerInvoked, Event.handlerReturned,
          Event.setAttributes attrs,
          Event.setStatus (resolveStatus cfg (effectiveStatus c2) err).1
            (resolveStatus cfg (effectiveStatus c2) err).2]
          ++ (match err with
              | some e => [Event.recordError e]
              | none => [])
          ++ [Event.spanEnd] } := by
  unfold OTelWithConfig
  rw [hfilter]
  simp only [Bool.false_eq_true, if_false, hnext, hattrs]
  cases err <;> rfl

lemma run_handler_panic (cfg : OTelConfig)
    (prop : TraceCtx → List (String × String) → TraceCtx) (ns : Nat)
    (next : Handler) (c : Ctx) (c2 : Ctx) (p : Panic)
    (hfilter : filterDecision cfg c = false)
    (hnext : next (tracedRequestCtx cfg prop c) = (c2, Except.error p)) :
    OTelWithConfig cfg prop ns next c =
      { ctx := c2, result := Except.error p,
        events := [Event.extract,
          Event.spanStart (resolveSpanName cfg c) SpanKind.server,
          Event.handlerInvoked, Event.spanEnd] } := by
  unfold OTelWithConfig
  rw [hfilter]
  simp only [Bool.false_eq_true, if_false, hnext]

lemma run_attrs_panic (cfg : OTelConfig)
    (prop : TraceCtx → List (String × String) → TraceCtx) (ns : Nat)
    (next : Handler) (c : Ctx) (c2 : Ctx) (err : Option Err) (p : Panic)
    (hfilter : filterDecision cfg c = false)
    (hnext : next (tracedRequestCtx cfg prop c) = (c2, Except.ok err))
    (hattrs : buildAttrs cfg c2 c.remoteAddr (effectiveStatus c2) ns =
      Except.error p) :
    OTelWithConfig cfg prop ns next c =
      { ctx := c2, result := Except.error p,
        events := [Event.extract,
          Event.spanStart (resolveSpanName cfg c) SpanKind.server,
          Event.handlerInvoked, Event.handlerReturned, Event.spanEnd] } := by
  unfold OTelWithConfig
  rw [hfilter]
  simp only [Bool.false_eq_true, if_false, hnext, hattrs]

/-- C1: under the default status mapper (no custom `StatusFunc`), the
result is `(Error, statusText code)` exactly when the error is non-nil
or the code is at least 500, and `(Ok, "")` otherwise; in particular
`defaultStatus 404 none = (Ok, "")` — 4xx codes are not special-cased. -/
theorem defaultStatus_error_iff :
    (∀ (status : Nat) (err : Option Err),
      (defaultStatus status err = (SpanCode.error, statusText status) ↔
        (err ≠ none ∨ 500 ≤ status)) ∧
      (defaultStatus status err = (SpanCode.ok, "") ↔
        ¬(err ≠ none ∨ 500 ≤ status))) ∧
    defaultStatus 404 none = (SpanCode.ok, "") := by
  refine ⟨fun status err => ?_, rfl⟩
  by_cases h : err ≠ none ∨ 500 ≤ status
  · simp [defaultStatus, h]
  · simp [defaultStatus, h]

/-- C3: a request the configured filter accepts is passed straight
through: the inner handler runs on the original unmodified context, its
outcome is returned unchanged, and no tracer, propagator, or span call
is made (no span start, no extraction, no attributes). -/
theorem filter_skips_tracing (cfg : OTelConfig)
    (prop : TraceCtx → List (String × String) → TraceCtx) (ns : Nat)
    (next : Handler) (c : Ctx) (f : Ctx → Bool)
    (hf : cfg.filterFunc = some f) (ht : f c = true) :
    OTelWithConfig cfg prop ns next c =
      { ctx := (next c).1, result := (next c).2, events := [] } := by
  unfold OTelWithConfig
  have hd : filterDecision cfg c = true := by simp [filterDecision, hf, ht]
  rw [hd]
  simp

/-- Witness for C3 at a concrete always-filtered request. -/
theorem filter_skips_tracing_witness :
    wFilterCfg.filterFunc = some wFilterFn ∧ wFilterFn wCtx = true ∧
    OTelWithConfig wFilterCfg wProp 7 wNext wCtx =
      { ctx := (wNext wCtx).1, result := (wNext wCtx).2, events := [] } :=
  ⟨rfl, rfl, filter_skips_tracing wFilterCfg wProp 7 wNext wCtx wFilterFn rfl rfl⟩

/-- C9: with no active span in the request context (filtered request or
no interceptor), `Span` returns the non-recording no-op handle, and
`AddAttributes`/`AddEvent` record nothing; all three are total Lean
functions, so no error or panic can arise. -/
theorem span_helpers_noop (c : Ctx) (h : c.reqCtx.activeSpan = none) :
    Span c = SpanHandle.noop ∧
    (∀ attrs, AddAttributes c attrs = []) ∧
    (∀ name attrs, AddEvent c name attrs = []) := by
  refine ⟨?_, fun attrs => ?_, fun name attrs => ?_⟩ <;>
    simp [Span, AddAttributes, AddEvent, SpanHandle.record, h]

/-- Witness for C9 at a concrete span-free context. -/
theorem span_helpers_noop_witness :
    wCtx.reqCtx.activeSpan = none ∧
    (Span wCtx = SpanHandle.noop ∧
     (∀ attrs, AddAttributes wCtx attrs = []) ∧
     (∀ name attrs, AddEvent wCtx name attrs = [])) :=
  ⟨rfl, span_helpers_noop wCtx rfl⟩

/-- C7: the started span carries the resolved name: a configured
`SpanNameFunc`'s non-empty value wins; an absent function or an empty
value falls back to `METHOD + " " + route` (when a route template is
matched) or `METHOD + " " + path`; the resolved name is never empty. -/
theorem span_name_policy (cfg : OTelConfig)
    (prop : TraceCtx → List (String × String) → TraceCtx) (ns : Nat)
    (next : Handler) (c : Ctx)
    (hfilter : filterDecision cfg c = false) :
    Event.spanStart (resolveSpanName cfg c) SpanKind.server ∈
      (OTelWithConfig cfg prop ns next c).events ∧
    (∀ f, cfg.spanNameFunc = some f → f c ≠ "" →
      resolveSpanName cfg c = f c) ∧
    (∀ f, cfg.spanNameFunc = some f → f c = "" →
      resolveSpanName cfg c = defaultSpanName c) ∧
    (cfg.spanNameFunc = none → resolveSpanName cfg c = defaultSpanName c) ∧
    (c.route ≠ "" → defaultSpanName c = c.method ++ " " ++ c.route) ∧
    (c.route = "" → defaultSpanName c = c.method ++ " " ++ c.path) ∧
    resolveSpanName cfg c ≠ "" := by
  refine ⟨?_, ?_, ?_, ?_, ?_, ?_, ?_⟩
  · rcases hnext : next (tracedRequestCtx cfg prop c) with ⟨c2, res⟩
    rcases res with p | err
    · simp [OTelWithConfig, hfilter, hnext]
    · rcases hb : buildAttrs cfg c2 c.remoteAddr (effectiveStatus c2) ns
        with p | attrs
      · simp [OTelWithConfig, hfilter, hnext, hb]
      · rcases err with _ | e <;> simp [OTelWithConfig, hfilter, hnext, hb]
  · intro f hf hne
    simp [resolveSpanName, hf, hne]
  · intro f hf he
    simp [resolveSpanName, hf, he]
  · intro hn
    simp [resolveSpanName, hn]
  · intro hr
    simp [defaultSpanName, hr]
  · intro hr
    simp [defaultSpanName, hr]
  · rcases hf : cfg.spanNameFunc with _ | f
    · simpa [resolveSpanName, hf] using defaultSpanName_ne_empty c
    · by_cases hne : f c = ""
      · simpa [resolveSpanName, hf, hne] using defaultSpanName_ne_empty c
      · simp [resolveSpanName, hf, hne]

/-- Witness for C7 at a concrete unfiltered request. -/
theorem span_name_policy_witness :
    filterDecision wCfg wCtx = false ∧
    (Event.spanStart (resolveSpanName wCfg wCtx) SpanKind.server ∈
      (OTelWithConfig wCfg wProp 3 wNext wCtx).events ∧
    (∀ f, wCfg.spanNameFunc = some f → f wCtx ≠ "" →
      resolveSpanName wCfg wCtx = f wCtx) ∧
    (∀ f, wCfg.spanNameFunc = some f → f wCtx = "" →
      resolveSpanName wCfg wCtx = defaultSpanName wCtx) ∧
    (wCfg.spanNameFunc = none →
      resolveSpanName wCfg wCtx = defaultSpanName wCtx) ∧
    (wCtx.route ≠ "" →
      defaultSpanName wCtx = wCtx.method ++ " " ++ wCtx.route) ∧
    (wCtx.route = "" →
      defaultSpanName wCtx = wCtx.method ++ " " ++ wCtx.path) ∧
    resolveSpanName wCfg wCtx ≠ "") :=
  ⟨rfl, span_name_policy wCfg wProp 3 wNext wCtx rfl⟩

/-- C2: for an unfiltered request, exactly one span is started and
exactly one span is ended, and the unique span end is the last
capability call — hence strictly after the handler returned and after
attribute/status assembly — on every path, including those where the
handler or the finalization (attributes callback) panics. -/
theorem span_started_ended_once (cfg : OTelConfig)
    (prop : TraceCtx → List (String × String) → TraceCtx) (ns : Nat)
    (next : Handler) (c : Ctx)
    (hfilter : filterDecision cfg c = false) :
    (OTelWithConfig cfg prop ns next c).events.countP isSpanStart = 1 ∧
    (OTelWithConfig cfg prop ns next c).events.countP isSpanEnd = 1 ∧
    (OTelWithConfig cfg prop ns next c).events.getLast? =
      some Event.spanEnd := by
  rcases hnext : next (tracedRequestCtx cfg prop c) with ⟨c2, res⟩
  rcases res with p | err
  · rw [run_handler_panic cfg prop ns next c c2 p hfilter hnext]
    exact ⟨rfl, rfl, rfl⟩
  · rcases hb : buildAttrs cfg c2 c.remoteAddr (effectiveStatus c2) ns
      with p | attrs
    · rw [run_attrs_panic cfg prop ns next c c2 err p hfilter hnext hb]
      exact ⟨rfl, rfl, rfl⟩
    · rw [run_not_filtered_ok cfg prop ns next c c2 err attrs hfilter hnext hb]
      rcases err with _ | e <;> exact ⟨rfl, rfl, rfl⟩

/-- Witness for C2 at a concrete unfiltered request. -/
theorem span_started_ended_once_witness :
    filterDecision wCfg wCtx = false ∧
    ((OTelWithConfig wCfg wProp 9 wNext wCtx).events.countP isSpanStart = 1 ∧
     (OTelWithConfig wCfg wProp 9 wNext wCtx).events.countP isSpanEnd = 1 ∧
     (OTelWithConfig wCfg wProp 9 wNext wCtx).events.getLast? =
       some Event.spanEnd) :=
  ⟨rfl, span_started_ended_once wCfg wProp 9 wNext wCtx rfl⟩

/-- C4: the handler's returned error is passed to the caller unchanged
(never swallowed or wrapped); a non-nil error is additionally recorded
as an exception event on the span, and the mapped status fed to
`span.SetStatus` is computed from that same error. -/
theorem handler_error_propagated (cfg : OTelConfig)
    (prop : TraceCtx → List (String × String) → TraceCtx) (ns : Nat)
    (next : Handler) (c : Ctx) (c2 : Ctx) (err : Option Err)
    (attrs : List Attr)
    (hfilter : filterDecision cfg c = false)
    (hnext : next (tracedRequestCtx cfg prop c) = (c2, Except.ok err))
    (hattrs : buildAttrs cfg c2 c.remoteAddr (effectiveStatus c2) ns =
      Except.ok attrs) :
    (OTelWithConfig cfg prop ns next c).result = Except.ok err ∧
    Event.setStatus (resolveStatus cfg (effectiveStatus c2) err).1
        (resolveStatus cfg (effectiveStatus c2) err).2 ∈
      (OTelWithConfig cfg prop ns next c).events ∧
    (∀ e, err = some e →
      Event.recordError e ∈ (OTelWithConfig cfg prop ns next c).events) := by
  rw [run_not_filtered_ok cfg prop ns next c c2 err attrs hfilter hnext hattrs]
  refine ⟨rfl, ?_, ?_⟩
  · rcases err with _ | e <;> simp
  · rintro e rfl
    simp

/-- The post-handler context produced by `wNextErr` on the traced
request context of `wCtx` under the default config. -/
def wCtx2 : Ctx :=
  { wCtx with
    route := "/hello/:name",
    reqCtx := { activeSpan := some (SpanHandle.span "GET /hello/x" SpanKind.server) } }

/-- The attribute list assembled for the `wNextErr` run. -/
def wAttrs : List Attr :=
  [⟨"http.method", AttrValue.str "GET"⟩,
   ⟨"http.target", AttrValue.str "/hello/x"⟩,
   ⟨"net.peer.addr", AttrValue.str "192.0.2.1:5000"⟩,
   ⟨"http.route", AttrValue.str "/hello/:name"⟩,
   ⟨"http.status_code", AttrValue.int 200⟩]

/-- Witness for C4 at a concrete erroring handler. -/
theorem handler_error_propagated_witness :
    filterDecision wCfg wCtx = false ∧
    wNextErr (tracedRequestCtx wCfg wProp wCtx) =
      (wCtx2, Except.ok (some "boom")) ∧
    buildAttrs wCfg wCtx2 wCtx.remoteAddr (effectiveStatus wCtx2) 5 =
      Except.ok wAttrs ∧
    ((OTelWithConfig wCfg wProp 5 wNextErr wCtx).result =
      Except.ok (some "boom") ∧
     Event.setStatus
         (resolveStatus wCfg (effectiveStatus wCtx2) (some "boom")).1
         (resolveStatus wCfg (effectiveStatus wCtx2) (some "boom")).2 ∈
       (OTelWithConfig wCfg wProp 5 wNextErr wCtx).events ∧
     (∀ e, (some "boom" : Option Err) = some e →
       Event.recordError e ∈
         (OTelWithConfig wCfg wProp 5 wNextErr wCtx).events)) :=
  ⟨rfl, by decide, by decide,
   handler_error_propagated wCfg wProp 5 wNextErr wCtx wCtx2 (some "boom")
     wAttrs rfl (by decide) (by decide)⟩

/-- C5: for a traced request the attribute set passed to
`span.SetAttributes` is assembled in the fixed order `http.method`,
`http.target`, `net.peer.addr` (always), `http.route` (only when a
route template exists), `service.name` (only when configured), the
`AttributesFunc` result (only when configured — `attrsFnResult` is `[]`
when absent), `ExtraAttributes`, `http.status_code` (always), and
finally `http.server.duration_ms` exactly when `RecordDuration` is set
(assuming the user-supplied segments do not themselves use that key). -/
theorem attribute_assembly_order (cfg : OTelConfig)
    (prop : TraceCtx → List (String × String) → TraceCtx) (ns : Nat)
    (next : Handler) (c : Ctx) (c2 : Ctx) (err : Option Err)
    (fnAttrs : List Attr)
    (hfilter : filterDecision cfg c = false)
    (hnext : next (tracedRequestCtx cfg prop c) = (c2, Except.ok err))
    (hfn : attrsFnResult cfg c2 = Except.ok fnAttrs) :
    ∃ attrs,
      buildAttrs cfg c2 c.remoteAddr (effectiveStatus c2) ns =
        Except.ok attrs ∧
      Event.setAttributes attrs ∈
        (OTelWithConfig cfg prop ns next c).events ∧
      attrs =
        [⟨"http.method", AttrValue.str c2.method⟩,
         ⟨"http.target", AttrValue.str c2.path⟩,
         ⟨"net.peer.addr", AttrValue.str c.remoteAddr⟩]
        ++ (if c2.route ≠ "" then
              [⟨"http.route", AttrValue.str c2.route⟩] else [])
        ++ (if cfg.serviceName ≠ "" then
              [⟨"service.name", AttrValue.str cfg.serviceName⟩] else [])
        ++ fnAttrs
        ++ cfg.extraAttributes
        ++ [⟨"http.status_code", AttrValue.int (effectiveStatus c2)⟩]
        ++ (if cfg.recordDuration then
              [⟨"http.server.duration_ms",
                AttrValue.float ((ns : ℚ) / 1000000)⟩] else []) ∧
      (cfg.recordDuration = true →
        "http.server.duration_ms" ∈ attrs.map Attr.key) ∧
      (cfg.recordDuration = false →
        "http.server.duration_ms" ∉ fnAttrs.map Attr.key →
        "http.server.duration_ms" ∉ cfg.extraAttributes.map Attr.key →
        "http.server.duration_ms" ∉ attrs.map Attr.key) := by
  have hshape :=
    buildAttrs_ok_shape cfg c2 c.remoteAddr (effectiveStatus c2) ns fnAttrs hfn
  refine ⟨_, hshape, ?_, rfl, ?_, ?_⟩
  · rw [run_not_filtered_ok cfg prop ns next c c2 err _ hfilter hnext hshape]
    rcases err with _ | e <;> simp
  · intro hd
    simp [hd]
  · intro hd hfn2 hex
    by_cases hr : c2.route ≠ "" <;> by_cases hs : cfg.serviceName ≠ "" <;>
      simp [hd, hr, hs, hfn2, hex]

/-- Witness for C5 at a concrete traced request. -/
theorem attribute_assembly_order_witness :
    filterDecision wCfg wCtx = false ∧
    wNextErr (tracedRequestCtx wCfg wProp wCtx) =
      (wCtx2, Except.ok (some "boom")) ∧
    attrsFnResult wCfg wCtx2 = Except.ok [] ∧
    (∃ attrs,
      buildAttrs wCfg wCtx2 wCtx.remoteAddr (effectiveStatus wCtx2) 5 =
        Except.ok attrs ∧
      Event.setAttributes attrs ∈
        (OTelWithConfig wCfg wProp 5 wNextErr wCtx).events ∧
      attrs =
        [⟨"http.method", AttrValue.str wCtx2.method⟩,
         ⟨"http.target", AttrValue.str wCtx2.path⟩,
         ⟨"net.peer.addr", AttrValue.str wCtx.remoteAddr⟩]
        ++ (if wCtx2.route ≠ "" then
              [⟨"http.route", AttrValue.str wCtx2.route⟩] else [])
        ++ (if wCfg.serviceName ≠ "" then
              [⟨"service.name", AttrValue.str wCfg.serviceName⟩] else [])
        ++ []
        ++ wCfg.extraAttributes
        ++ [⟨"http.status_code", AttrValue.int (effectiveStatus wCtx2)⟩]
        ++ (if wCfg.recordDuration then
              [⟨"http.server.duration_ms",
                AttrValue.float (((5 : Nat) : ℚ) / 1000000)⟩] else []) ∧
      (wCfg.recordDuration = true →
        "http.server.duration_ms" ∈ attrs.map Attr.key) ∧
      (wCfg.recordDuration = false →
        "http.server.duration_ms" ∉ List.map Attr.key [] →
        "http.server.duration_ms" ∉ wCfg.extraAttributes.map Attr.key →
        "http.server.duration_ms" ∉ attrs.map Attr.key)) :=
  ⟨rfl, by decide, rfl,
   attribute_assembly_order wCfg wProp 5 wNextErr wCtx wCtx2 (some "boom")
     [] rfl (by decide) rfl⟩

/-- C6: when the handler wrote no status (observed 0), the effective
status used for the `http.status_code` attribute and for status mapping
is 200; a handler error still forces `(Error, statusText 200)` under the
default mapping and is recorded, while the error goes back to the
caller. -/
theorem unwritten_status_defaults_200 (cfg : OTelConfig)
    (prop : TraceCtx → List (String × String) → TraceCtx) (ns : Nat)
    (next : Handler) (c : Ctx) (c2 : Ctx) (err : Option Err)
    (attrs : List Attr)
    (hfilter : filterDecision cfg c = false)
    (hnext : next (tracedRequestCtx cfg prop c) = (c2, Except.ok err))
    (hzero : c2.statusCode = 0)
    (hattrs : buildAttrs cfg c2 c.remoteAddr 200 ns = Except.ok attrs) :
    effectiveStatus c2 = 200 ∧
    (⟨"http.status_code", AttrValue.int 200⟩ : Attr) ∈ attrs ∧
    Event.setStatus (resolveStatus cfg 200 err).1
        (resolveStatus cfg 200 err).2 ∈
      (OTelWithConfig cfg prop ns next c).events ∧
    (OTelWithConfig cfg prop ns next c).result = Except.ok err ∧
    (∀ e, err = some e → cfg.statusFunc = none →
      Event.setStatus SpanCode.error (statusText 200) ∈
        (OTelWithConfig cfg prop ns next c).events ∧
      Event.recordError e ∈ (OTelWithConfig cfg prop ns next c).events) := by
  have he : effectiveStatus c2 = 200 := by simp [effectiveStatus, hzero]
  have hattrs2 : buildAttrs cfg c2 c.remoteAddr (effectiveStatus c2) ns =
      Except.ok attrs := by
    rw [he]
    exact hattrs
  have hm := mem_of_buildAttrs_ok cfg c2 c.remoteAddr 200 ns attrs hattrs
  rw [run_not_filtered_ok cfg prop ns next c c2 err attrs hfilter hnext
    hattrs2, he]
  refine ⟨rfl, hm.2.2.2.1, ?_, rfl, ?_⟩
  · rcases err with _ | e <;> simp
  · rintro e rfl hsf
    have hres : resolveStatus cfg 200 (some e) =
        (SpanCode.error, statusText 200) := by
      simp [resolveStatus, hsf, defaultStatus]
    rw [hres]
    exact ⟨by simp, by simp⟩

/-- Witness for C6 at a concrete erroring handler that wrote no status. -/
theorem unwritten_status_defaults_200_witness :
    filterDecision wCfg wCtx = false ∧
    wNextErr (tracedRequestCtx wCfg wProp wCtx) =
      (wCtx2, Except.ok (some "boom")) ∧
    wCtx2.statusCode = 0 ∧
    buildAttrs wCfg wCtx2 wCtx.remoteAddr 200 5 = Except.ok wAttrs ∧
    (effectiveStatus wCtx2 = 200 ∧
     (⟨"http.status_code", AttrValue.int 200⟩ : Attr) ∈ wAttrs ∧
     Event.setStatus (resolveStatus wCfg 200 (some "boom")).1
         (resolveStatus wCfg 200 (some "boom")).2 ∈
       (OTelWithConfig wCfg wProp 5 wNextErr wCtx).events ∧
     (OTelWithConfig wCfg wProp 5 wNextErr wCtx).result =
       Except.ok (some "boom") ∧
     (∀ e, (some "boom" : Option Err) = some e → wCfg.statusFunc = none →
       Event.setStatus SpanCode.error (statusText 200) ∈
         (OTelWithConfig wCfg wProp 5 wNextErr wCtx).events ∧
       Event.recordError e ∈
         (OTelWithConfig wCfg wProp 5 wNextErr wCtx).events)) :=
  ⟨rfl, by decide, rfl, by decide,
   unwritten_status_defaults_200 wCfg wProp 5 wNextErr wCtx wCtx2
     (some "boom") wAttrs rfl (by decide) rfl (by decide)⟩

/-- Post-handler context produced by `wNext` on the traced request
context of `wCtx` under the custom-status config. -/
def wCtx3 : Ctx :=
  { wCtx with
    statusCode := 201,
    reqCtx := { activeSpan := some (SpanHandle.span "GET /hello/x" SpanKind.server) } }

/-- The attribute list assembled for the `wNext` run. -/
def wAttrs3 : List Attr :=
  [⟨"http.method", AttrValue.str "GET"⟩,
   ⟨"http.target", AttrValue.str "/hello/x"⟩,
   ⟨"net.peer.addr", AttrValue.str "192.0.2.1:5000"⟩,
   ⟨"http.status_code", AttrValue.int 201⟩]

/-- C8: a configured `StatusFunc` fully replaces the default mapping for
every status code and error, and the status set on the span is exactly
the custom function applied to the effective status and the handler's
original (unprocessed) error value. -/
theorem custom_status_full_override (cfg : OTelConfig)
    (prop : TraceCtx → List (String × String) → TraceCtx) (ns : Nat)
    (next : Handler) (c : Ctx) (c2 : Ctx) (err : Option Err)
    (attrs : List Attr) (f : Nat → Option Err → SpanCode × String)
    (hfilter : filterDecision cfg c = false)
    (hnext : next (tracedRequestCtx cfg prop c) = (c2, Except.ok err))
    (hattrs : buildAttrs cfg c2 c.remoteAddr (effectiveStatus c2) ns =
      Except.ok attrs)
    (hsf : cfg.statusFunc = some f) :
    (∀ s e, resolveStatus cfg s e = f s e) ∧
    Event.setStatus (f (effectiveStatus c2) err).1
        (f (effectiveStatus c2) err).2 ∈
      (OTelWithConfig cfg prop ns next c).events := by
  have hr : ∀ s e, resolveStatus cfg s e = f s e := fun s e => by
    simp [resolveStatus, hsf]
  refine ⟨hr, ?_⟩
  rw [run_not_filtered_ok cfg prop ns next c c2 err attrs hfilter hnext
    hattrs, hr]
  rcases err with _ | e <;> simp

/-- Witness for C8 at a concrete request under the custom mapper. -/
theorem custom_status_full_override_witness :
    filterDecision wStatusCfg wCtx = false ∧
    wNext (tracedRequestCtx wStatusCfg wProp wCtx) =
      (wCtx3, Except.ok none) ∧
    buildAttrs wStatusCfg wCtx3 wCtx.remoteAddr (effectiveStatus wCtx3) 2 =
      Except.ok wAttrs3 ∧
    wStatusCfg.statusFunc = some wStatusFn ∧
    ((∀ s e, resolveStatus wStatusCfg s e = wStatusFn s e) ∧
     Event.setStatus (wStatusFn (effectiveStatus wCtx3) none).1
         (wStatusFn (effectiveStatus wCtx3) none).2 ∈
       (OTelWithConfig wStatusCfg wProp 2 wNext wCtx).events) :=
  ⟨rfl, by decide, by decide, rfl,
   custom_status_full_override wStatusCfg wProp 2 wNext wCtx wCtx3 none
     wAttrs3 wStatusFn rfl (by decide) (by decide) rfl⟩

/-- C10: the span name is computed from the method, route and path
observed before the handler runs, while the `http.target` and
`http.route` attributes come from the post-handler context; when the
route template only becomes available during delegation, the span name
uses the raw path while `http.route` carries the template. -/
theorem span_name_early_route_attr_late (cfg : OTelConfig)
    (prop : TraceCtx → List (String × String) → TraceCtx) (ns : Nat)
    (next : Handler) (c : Ctx) (c2 : Ctx) (err : Option Err)
    (attrs : List Attr)
    (hfilter : filterDecision cfg c = false)
    (hnext : next (tracedRequestCtx cfg prop c) = (c2, Except.ok err))
    (hattrs : buildAttrs cfg c2 c.remoteAddr (effectiveStatus c2) ns =
      Except.ok attrs) :
    Event.spanStart (resolveSpanName cfg c) SpanKind.server ∈
      (OTelWithConfig cfg prop ns next c).events ∧
    Event.setAttributes attrs ∈ (OTelWithConfig cfg prop ns next c).events ∧
    (⟨"http.target", AttrValue.str c2.path⟩ : Attr) ∈ attrs ∧
    (c2.route ≠ "" → (⟨"http.route", AttrValue.str c2.route⟩ : Attr) ∈ attrs) ∧
    (cfg.spanNameFunc = none → c.route = "" →
      Event.spanStart (c.method ++ " " ++ c.path) SpanKind.server ∈
        (OTelWithConfig cfg prop ns next c).events) := by
  have hm := mem_of_buildAttrs_ok cfg c2 c.remoteAddr (effectiveStatus c2)
    ns attrs hattrs
  rw [run_not_filtered_ok cfg prop ns next c c2 err attrs hfilter hnext
    hattrs]
  refine ⟨?_, ?_, hm.2.1, hm.2.2.2.2, ?_⟩
  · rcases err with _ | e <;> simp
  · rcases err with _ | e <;> simp
  · intro hn hr
    have hname : resolveSpanName cfg c = c.method ++ " " ++ c.path := by
      simp [resolveSpanName, hn, defaultSpanName, hr]
    rw [← hname]
    rcases err with _ | e <;> simp

/-- Witness for C10: the route template appears only during delegation. -/
theorem span_name_early_route_attr_late_witness :
    filterDecision wCfg wCtx = false ∧
    wNextErr (tracedRequestCtx wCfg wProp wCtx) =
      (wCtx2, Except.ok (some "boom")) ∧
    buildAttrs wCfg wCtx2 wCtx.remoteAddr (effectiveStatus wCtx2) 5 =
      Except.ok wAttrs ∧
    (Event.spanStart (resolveSpanName wCfg wCtx) SpanKind.server ∈
      (OTelWithConfig wCfg wProp 5 wNextErr wCtx).events ∧
    Event.setAttributes wAttrs ∈
      (OTelWithConfig wCfg wProp 5 wNextErr wCtx).events ∧
    (⟨"http.target", AttrValue.str wCtx2.path⟩ : Attr) ∈ wAttrs ∧
    (wCtx2.route ≠ "" →
      (⟨"http.route", AttrValue.str wCtx2.route⟩ : Attr) ∈ wAttrs) ∧
    (wCfg.spanNameFunc = none → wCtx.route = "" →
      Event.spanStart (wCtx.method ++ " " ++ wCtx.path) SpanKind.server ∈
        (OTelWithConfig wCfg wProp 5 wNextErr wCtx).events)) :=
  ⟨rfl, by decide, by decide,
   span_name_early_route_attr_late wCfg wProp 5 wNextErr wCtx wCtx2
     (some "boom") wAttrs rfl (by decide) (by decide)⟩

end GoflashOtel
